import Mathlib

/-!
Verification of the System Design Co-Pilot agent core (agent.py, database.py,
prompts.py): the command router, the phase turn processor, the summarizer and
the session orchestrator, embedded as executable Lean definitions, together
with theorems settling the specified properties.
-/

namespace SysDesign

/-- A transcript entry or chat message: a (speaker/role, text) pair, mirroring the
(speaker, text) tuples of `conversation_history` and the LangChain message roles
("human" for `HumanMessage`, "ai" for `AIMessage`). -/
abbrev Entry := String × String

/-- `AgentState` (agent.py lines 24-30).  `design_document` is the phase-keyed
dict, modelled as an association list with Python dict get/set semantics. -/
structure AgentState where
  discussion_id : String
  conversation_history : List Entry
  current_phase : String
  design_document : List (String × String)
  user_command : String
deriving Repr, DecidableEq, Inhabited

/-- `self.phases` (agent.py lines 47-54). -/
def phases : List String :=
  ["vision_and_scoping",
   "functional_requirements",
   "data_model",
   "nfr_and_scale",
   "architecture_and_components",
   "deep_dive_and_tradeoffs"]

/-- Python `str.lower()` (ASCII-relevant part), character by character. -/
def pyLower (s : String) : String :=
  ⟨s.data.map Char.toLower⟩

/-- Python `str.strip()`: whitespace removed from both ends. -/
def pyStrip (s : String) : String :=
  ⟨((s.data.dropWhile Char.isWhitespace).reverse.dropWhile Char.isWhitespace).reverse⟩

/-- Whether `pat` is a prefix of `s`, on character lists. -/
def charsPrefix : List Char → List Char → Bool
  | [], _ => true
  | _ :: _, [] => false
  | a :: as, b :: bs => a == b && charsPrefix as bs

/-- Whether `pat` occurs inside `s`, on character lists. -/
def charsInfix (pat : List Char) : List Char → Bool
  | [] => charsPrefix pat []
  | c :: t => charsPrefix pat (c :: t) || charsInfix pat t

/-- Python substring containment `pat in s`. -/
def containsSub (s pat : String) : Bool :=
  charsInfix pat.data s.data

/-- Python `list.index`: index of the first occurrence, or `none` for the
`ValueError` raised when the element is absent. -/
def pyIndex (l : List String) (x : String) : Option Nat :=
  match l with
  | [] => none
  | a :: t => if a == x then some 0 else (pyIndex t x).map (· + 1)

/-- Python dict read with default, `d.get(k, v)`. -/
def dictGetD (d : List (String × String)) (k v : String) : String :=
  match d with
  | [] => v
  | (a, b) :: t => if a == k then b else dictGetD t k v

/-- Python dict assignment `d[k] = v`: replaces the value at an existing key,
otherwise appends a fresh binding. -/
def dictSet (d : List (String × String)) (k v : String) : List (String × String) :=
  match d with
  | [] => [(k, v)]
  | (a, b) :: t => if a == k then (a, v) :: t else (a, b) :: dictSet t k v

/-- Python dict membership `k in d`. -/
def dictHas (d : List (String × String)) (k : String) : Bool :=
  match d with
  | [] => false
  | (a, _) :: t => a == k || dictHas t k

/-- `_router` (agent.py lines 143-163), as a function of the two state fields it
reads.  `none` models the `ValueError` that `self.phases.index(current_phase)`
raises when `current_phase` is not in the phase list. -/
def router (current_phase user_command : String) : Option String :=
  let command := pyStrip (pyLower user_command)
  if containsSub command "[next]" then
    match pyIndex phases current_phase with
    | some current_index => some (phases.getD (min (current_index + 1) (phases.length - 1)) "")
    | none => none
  else if containsSub command "[back]" then
    match pyIndex phases current_phase with
    | some current_index => some (phases.getD (max (current_index - 1) 0) "")
    | none => none
  else if containsSub command "[summarize]" then
    some "summarize"
  else if containsSub command "[end]" || containsSub command "[exit]" then
    some "end"
  else
    some current_phase

/-- `SYSTEM_PERSONA` (prompts.py lines 6-14). -/
def SYSTEM_PERSONA : String :=
  "You are an expert Staff-level Software Engineer and AI Architect acting as a Socratic system design coach. Your goal is to guide the user from a high-level idea to a well-defined set of system requirements. You MUST NOT provide direct answers or solutions. Instead, you MUST ask probing, open-ended questions to help the user think through all critical aspects of system design. Your tone is professional, encouraging, and collaborative. You will guide the user through a series of phases. In each phase, ask the specified questions. Base your follow-up questions on the user's responses to dig deeper."

/-- `VISION_AND_SCOPING_PROMPT` (prompts.py lines 30-35). -/
def VISION_AND_SCOPING_PROMPT : String :=
  "Let's begin with the big picture. To build a solid foundation, we need to understand the 'why' behind this project.\n\nFirst, what is the core problem you're aiming to solve? Who are your primary users, and what are their biggest pain points that this system will address?\n\nNext, what are the absolute, must-have outcomes for a version 1? Think about the minimum viable product (MVP) that delivers real value.\n\nFinally, let's talk about constraints. Are there any hard limits on budget, timeline, team expertise, or required use of existing company infrastructure?"

/-- `FUNCTIONAL_REQUIREMENTS_PROMPT` (prompts.py lines 37-42). -/
def FUNCTIONAL_REQUIREMENTS_PROMPT : String :=
  "Great, we have a clear vision. Now, let's detail *what* the system will do. Let's define the functional requirements.\n\nCould you describe the key user journeys? For example, walk me through the steps a user would take to accomplish their main goal, from start to finish.\n\nCan you list the core features as user stories? The format 'As a [user type], I can [perform an action] so that [I get this benefit]' is very helpful.\n\nWill this system expose an API for other services or clients? If so, what are the crucial endpoints you envision, such as `POST /users` or `GET /products/{id}`?"

/-- `DATA_MODEL_PROMPT` (prompts.py lines 44-50). -/
def DATA_MODEL_PROMPT : String :=
  "Excellent. With the functionality defined, let's focus on the data—the lifeblood of the system.\n\nWhat are the fundamental entities or 'nouns' in your system? Think about core concepts like 'User', 'Product', 'Order', 'Document', etc.\n\nHow do these entities relate to each other? Is it one-to-many (a User has many Orders), many-to-many (a Product can be in many Categories)?\n\nWhat kind of data will you store for each entity? Is it highly structured like a user profile, semi-structured like a JSON document, or unstructured like a full blog post or image?\n\nCrucially, let's consider the access patterns. Will your system be read-heavy (like a news site), write-heavy (like a logging service), or balanced?"

/-- `NFR_AND_SCALE_PROMPT` (prompts.py lines 52-58). -/
def NFR_AND_SCALE_PROMPT : String :=
  "Now let's discuss the non-functional requirements (NFRs), which define the system's quality and scalability.\n\nLet's do a 'back-of-the-envelope' scale estimation. How many daily active users and requests per second are you targeting at launch, and then in one year?\n\n- **Latency:** What is an acceptable response time for your users? For example, should 95% of requests complete in under 200ms?\n- **Availability:** How critical is uptime? Are you aiming for 'three nines' (99.9% uptime, ~8.7h downtime/year), 'four nines' (99.99%, ~52m downtime/year), or is less availability acceptable initially?\n- **Consistency:** If data is written to the system, does it need to be readable by everyone instantly (strong consistency), or is a small delay acceptable (eventual consistency)?"

/-- `ARCHITECTURE_AND_COMPONENTS_PROMPT` (prompts.py lines 60-72). -/
def ARCHITECTURE_AND_COMPONENTS_PROMPT : String :=
  "With a clear picture of the requirements, let's start sketching a high-level architectural blueprint.\n\nLet's think in terms of major building blocks. We will almost certainly need:\n- A **Client-Facing Interface** (e.g., Web Server, API Gateway)\n- The **Core Business Logic** (e.g., Application Server or Serverless Functions)\n- A **Primary Data Store** (e.g., Database)\n\nWhat other supporting services do you foresee? Consider components for:\n- **Traffic Management** (Load Balancers)\n- **Performance** (Caches)\n- **Asynchronous Communication** (Message Queues, Event Buses)\n- **User Identity** (Authentication/Authorization Service)\n- **Intensive Tasks** (Background Workers)"

/-- `DEEP_DIVE_AND_TRADEOFFS_PROMPT` (prompts.py lines 74-78). -/
def DEEP_DIVE_AND_TRADEOFFS_PROMPT : String :=
  "This architecture looks promising. The true mark of a great design is understanding its trade-offs. Let's challenge some of our assumptions.\n\nLet's pick a key component we've discussed, like the database. If you were thinking of a relational SQL database, what are the pros and cons of that choice versus a NoSQL alternative (like a document, key-value, or graph store) for this specific use case?\n\nNow consider how our services will communicate. What are the trade-offs between using synchronous APIs (like REST or gRPC) versus adopting an asynchronous, event-driven pattern for your system's core workflows? When would one be clearly better than the other?"

/-- `SUMMARY_PROMPT` (prompts.py lines 80-85) up to its final placeholder. -/
def SUMMARY_PROMPT_TEXT : String :=
  "We've covered a lot of ground. I will now synthesize our entire discussion, from vision to trade-offs, into a consolidated system design document. Please review it and let me know if there are any gaps or misinterpretations.\n\nHere is the summary of your system design based on our conversation:\n\n"

/-- `SUMMARY_PROMPT` (prompts.py lines 80-85); the trailing placeholder is
filled by the summary node through `ChatPromptTemplate`. -/
def SUMMARY_PROMPT : String :=
  SUMMARY_PROMPT_TEXT ++ "{design_document}"

/-- The summary template with its single, final `design_document` placeholder
substituted, as `ChatPromptTemplate.from_template(SUMMARY_PROMPT).invoke` does
(agent.py lines 175-177). -/
def summary_prompt_filled (design_document : String) : String :=
  SUMMARY_PROMPT_TEXT ++ design_document

/-- `self.phase_prompts` (agent.py lines 56-63). -/
def phase_prompts : List (String × String) :=
  [("vision_and_scoping", VISION_AND_SCOPING_PROMPT),
   ("functional_requirements", FUNCTIONAL_REQUIREMENTS_PROMPT),
   ("data_model", DATA_MODEL_PROMPT),
   ("nfr_and_scale", NFR_AND_SCALE_PROMPT),
   ("architecture_and_components", ARCHITECTURE_AND_COMPONENTS_PROMPT),
   ("deep_dive_and_tradeoffs", DEEP_DIVE_AND_TRADEOFFS_PROMPT)]

/-- The fixed fallback apology substituted when the model call raises
(agent.py line 128). -/
def FALLBACK_MESSAGE : String :=
  "I seem to be having trouble connecting. Could you try your message again?"

/-- The language model collaborator: `llm.invoke(messages)` produces a response
text, or `none` when the call raises. -/
abbrev LLM := List Entry → Option String

/-- `_format_history` (agent.py lines 97-105): user entries become human
messages, every other speaker an AI message. -/
def format_history (history : List Entry) : List Entry :=
  history.map fun (speaker, text) =>
    if speaker == "user" then ("human", text) else ("ai", text)

/-- The message list a phase node sends to the model (agent.py lines 113-121),
given the last transcript entry (`conversation_history[-1]`): the persona, the
whole formatted history, and — when the last entry is a user message
(`is_new_phase`) — the guiding prompt for the phase. -/
def prompt_messages (phase_name : String) (state : AgentState) (last : Entry) : List Entry :=
  let base := ("human", SYSTEM_PERSONA) :: format_history state.conversation_history
  if last.1 == "user" then
    base ++ [("human", dictGetD phase_prompts phase_name "")]
  else
    base

/-- The assistant text of a phase turn (agent.py lines 123-128): the model
response, or the fixed fallback when the call raises. -/
def ai_message (llm : LLM) (phase_name : String) (state : AgentState) (last : Entry) : String :=
  (llm (prompt_messages phase_name state last)).getD FALLBACK_MESSAGE

/-- The node function produced by `_create_phase_node` (agent.py lines 110-139).
The result is the graph state after merging the node's update (its new
`conversation_history` and `design_document`); `none` models the `IndexError`
that `conversation_history[-1]` raises on an empty transcript, which the node
does not catch. -/
def phase_node (llm : LLM) (phase_name : String) (state : AgentState) : Option AgentState :=
  match state.conversation_history.getLast? with
  | none => none
  | some last =>
    let msg := ai_message llm phase_name state last
    let updated_history := state.conversation_history ++ [("ai", msg)]
    let current_doc := state.design_document
    let fragment :=
      dictGetD current_doc phase_name "" ++ "\n" ++
      String.intercalate "\n"
        ((state.conversation_history.drop (state.conversation_history.length - 1)).map Prod.snd) ++
      "\nAI: " ++ msg
    some { state with
            conversation_history := updated_history,
            design_document := dictSet current_doc phase_name fragment }

/-- Python `str.title()`: the first letter of each alphabetic run is
upper-cased, every other letter lower-cased; the flag carries whether the
previous character was a letter. -/
def pyTitleAux : List Char → Bool → List Char
  | [], _ => []
  | c :: t, prevAlpha =>
    (if c.isAlpha && !prevAlpha then c.toUpper else c.toLower) :: pyTitleAux t c.isAlpha

/-- Python `str.title()`. -/
def pyTitle (s : String) : String :=
  ⟨pyTitleAux s.data false⟩

/-- Python `phase.replace('_', ' ')` for the single-character pattern. -/
def underscoresToSpaces (s : String) : String :=
  ⟨s.data.map fun c => if c == '_' then ' ' else c⟩

/-- The concatenated per-phase document the summary node builds
(agent.py lines 169-172). -/
def full_document_text (state : AgentState) : String :=
  phases.foldl
    (fun acc phase =>
      if dictHas state.design_document phase then
        acc ++ "--- " ++ pyTitle (underscoresToSpaces phase) ++ " ---\n" ++
          dictGetD state.design_document phase "" ++ "\n\n"
      else acc)
    ""

/-- `_summary_node` (agent.py lines 165-183): fills the summary template,
invokes the model, falls back to the raw document on failure, and appends the
result to the transcript. -/
def summary_node (llm : LLM) (state : AgentState) : AgentState :=
  let doc := full_document_text state
  let summary_message :=
    match llm [("human", summary_prompt_filled doc)] with
    | some r => r
    | none => "I encountered an error while generating the summary. Here is the raw data:\n\n" ++ doc
  { state with conversation_history := state.conversation_history ++ [("ai", summary_message)] }

/-- One item of the turn's output stream: either a `{node: update}` chunk
yielded by `graph.stream`, carried here as the node name and the graph state
after the node's update was merged, or the `{"error": ...}` dictionary the
orchestrator yields when an exception reaches its boundary. -/
inductive Chunk where
  | step (node : String) (state : AgentState)
  | error (msg : String)
deriving Repr, DecidableEq

/-- What one fully consumed turn of `run_agent_stream` produces: the chunks
yielded to the caller and, in order, the states passed to `save_discussion`. -/
structure TurnResult where
  yields : List Chunk
  saves : List AgentState
deriving Repr, DecidableEq

/-- LangGraph's default `recursion_limit`: at most 25 super-steps per stream,
after which the stream raises `GraphRecursionError`. -/
def recursion_limit : Nat := 25

/-- Executes one graph node (agent.py lines 72-74): one of the six phase nodes
or `summarize`. `none` models an exception escaping the node. -/
def run_node (llm : LLM) (node : String) (st : AgentState) : Option AgentState :=
  if node == "summarize" then some (summary_node llm st)
  else phase_node llm node st

/-- The edge taken after a node (agent.py lines 80-93): `summarize` has a fixed
edge to END; each phase node routes through `_router` and the path map
`{p: p for p in phases}` extended with `summarize` and `end: END`.  `.error`
models an exception inside the step (the `ValueError` of `phases.index`, or a
router result missing from the path map), which the stream raises instead of
yielding the step; `.ok none` is END; `.ok (some n)` names the next node. -/
def next_target (node : String) (st : AgentState) : Except Unit (Option String) :=
  if node == "summarize" then .ok none
  else
    match router st.current_phase st.user_command with
    | none => .error ()
    | some r =>
      if r == "end" then .ok none
      else if phases.contains r || r == "summarize" then .ok (some r)
      else .error ()

/-- The fused graph/orchestrator loop (agent.py lines 218-231 consuming the
compiled graph's stream).  The stream yields one chunk per super-step; for each
chunk the orchestrator merges the node's update into its own state, re-runs the
router on that state, records the resulting phase unless it is "end", and
persists a snapshot.  A phase node updates `conversation_history` and
`design_document`; the summary node only `conversation_history`, but its
`design_document` is unchanged, so merging both fields is the same update.
Any exception surfaces as a single error chunk (agent.py lines 233-235);
`merge_update` is `current_state.update(latest_step_output)` (agent.py
lines 223-224). -/
def merge_update (ost gst2 : AgentState) : AgentState :=
  { ost with
     conversation_history := gst2.conversation_history,
     design_document := gst2.design_document }

/-- `if next_phase != 'end': current_state["current_phase"] = next_phase`
(agent.py lines 228-229). -/
def record_phase (ost2 : AgentState) (next_phase : String) : AgentState :=
  if next_phase != "end" then { ost2 with current_phase := next_phase } else ost2

/-- The loop itself; see the comment on `merge_update` above. -/
def stream_loop (llm : LLM) :
    Nat → String → AgentState → AgentState → List Chunk → List AgentState → TurnResult
  | 0, _, _, _, ys, ss =>
    ⟨ys ++ [.error "An unexpected error occurred in the agent: GraphRecursionError"], ss⟩
  | fuel + 1, node, gst, ost, ys, ss =>
    match run_node llm node gst with
    | none => ⟨ys ++ [.error "An unexpected error occurred in the agent: IndexError"], ss⟩
    | some gst2 =>
      match next_target node gst2 with
      | .error _ => ⟨ys ++ [.error "An unexpected error occurred in the agent: ValueError"], ss⟩
      | .ok tgt =>
        match router (merge_update ost gst2).current_phase (merge_update ost gst2).user_command with
        | none => ⟨ys ++ [.step node gst2] ++
                    [.error "An unexpected error occurred in the agent: ValueError"], ss⟩
        | some next_phase =>
          match tgt with
          | none => ⟨ys ++ [.step node gst2],
                     ss ++ [record_phase (merge_update ost gst2) next_phase]⟩
          | some n =>
            stream_loop llm fuel n gst2 (record_phase (merge_update ost gst2) next_phase)
              (ys ++ [.step node gst2]) (ss ++ [record_phase (merge_update ost gst2) next_phase])

/-- The discussions collection: persisted states keyed by ObjectId string. -/
abbrev Db := List (String × AgentState)

/-- Whether a string is a well-formed bson ObjectId (24 hex digits);
`ObjectId(s)` raises `InvalidId` on anything else. -/
def isValidObjectId (s : String) : Bool :=
  s.length == 24 && s.toList.all fun c => c.isDigit || "abcdefABCDEF".toList.contains c

/-- `DatabaseManager.load_discussion` (database.py lines 112-137): a malformed
id raises inside the `try`, which the broad `except` turns into `None`; an
unknown id finds no document and also yields `None`; a hit has its Mongo `_id`
copied back into the `discussion_id` field. -/
def load_discussion (db : Db) (discussion_id : String) : Option AgentState :=
  if isValidObjectId discussion_id then
    match db.lookup discussion_id with
    | some st => some { st with discussion_id := discussion_id }
    | none => none
  else
    none

/-- The state a turn hands to the graph (agent.py lines 213-215): the starting
state with the new user message appended and the pending command recorded. -/
def turn_state (user_input : String) (st0 : AgentState) : AgentState :=
  { st0 with
     user_command := user_input,
     conversation_history := st0.conversation_history ++ [("user", user_input)] }

/-- The brand-new session state (agent.py lines 204-211); `new_id` stands for
the minted `str(ObjectId())`. -/
def fresh_state (new_id : String) : AgentState :=
  { discussion_id := new_id,
    conversation_history := [],
    current_phase := phases.getD 0 "",
    design_document := [],
    user_command := "" }

/-- The body of a turn once an initial state exists (agent.py lines 213-218):
prepare the turn state and stream the compiled graph, which always begins at
its fixed entry point `self.phases[0]`. -/
def start_turn (llm : LLM) (user_input : String) (st0 : AgentState) : TurnResult :=
  stream_loop llm recursion_limit (phases.getD 0 "")
    (turn_state user_input st0) (turn_state user_input st0) [] []

/-- `run_agent_stream` (agent.py lines 185-235).  Python's `if discussion_id:`
treats an empty id like `None`. -/
def run_agent_stream (llm : LLM) (db : Db) (user_input : String)
    (discussion_id : Option String) (new_id : String) : TurnResult :=
  match discussion_id with
  | some id =>
    if id == "" then start_turn llm user_input (fresh_state new_id)
    else
      match load_discussion db id with
      | some st => start_turn llm user_input st
      | none => ⟨[.error ("Could not load discussion " ++ id ++ ".")], []⟩
  | none => start_turn llm user_input (fresh_state new_id)

/-- The node name of a yielded step chunk, `none` for an error chunk. -/
def chunkNode : Chunk → Option String
  | .step n _ => some n
  | .error _ => none

/-- The transcript carried by a yielded step chunk. -/
def chunkHistory : Chunk → Option (List Entry)
  | .step _ st => some st.conversation_history
  | .error _ => none

/-- A model stub that always answers. -/
def llmConst : LLM := fun _ => some "MODEL_REPLY"

/-- A persisted mid-discussion session used by the concrete scenarios. -/
def sessionDM : AgentState :=
  { discussion_id := "0123456789abcdef01234567",
    conversation_history := [("user", "hi"), ("ai", "hello")],
    current_phase := "data_model",
    design_document := [("vision_and_scoping", "seed")],
    user_command := "" }

/-- A discussions store holding `sessionDM` under its id. -/
def dbDM : Db := [("0123456789abcdef01234567", sessionDM)]

/-! ## Theorems -/

/-- C4: for every phase P in the phase list and every command whose lowercased,
trimmed form contains none of the five bracket tokens, the Router returns P
unchanged. -/
theorem router_no_token_returns_current_phase (P cmd : String)
    (_hP : P ∈ phases)
    (h1 : containsSub (pyStrip (pyLower cmd)) "[next]" = false)
    (h2 : containsSub (pyStrip (pyLower cmd)) "[back]" = false)
    (h3 : containsSub (pyStrip (pyLower cmd)) "[summarize]" = false)
    (h4 : containsSub (pyStrip (pyLower cmd)) "[end]" = false)
    (h5 : containsSub (pyStrip (pyLower cmd)) "[exit]" = false) :
    router P cmd = some P := by
  unfold router
  simp [h1, h2, h3, h4, h5]

/-- Witness for C4 at a concrete phase and command. -/
theorem router_no_token_returns_current_phase_witness :
    router "data_model" "tell me more about the users" = some "data_model" :=
  router_no_token_returns_current_phase "data_model" "tell me more about the users"
    (by decide) (by decide) (by decide) (by decide) (by decide) (by decide)

/-- C5 as stated is false: "[next][back]" contains "[back]", yet from the first
phase the Router advances to the second phase because the "[next]" branch has
priority, instead of returning the first phase. -/
theorem router_back_clamp_fails_with_next_present :
    phases.getD 0 "" = "vision_and_scoping" ∧
    containsSub (pyStrip (pyLower "[next][back]")) "[back]" = true ∧
    router "vision_and_scoping" "[next][back]" = some "functional_requirements" ∧
    ("functional_requirements" : String) ≠ "vision_and_scoping" := by decide

/-- C5 (amended): the Router clamps at both ends without throwing — any command
containing "[next]" keeps the last phase on the last phase, and any command
containing "[back]" but not "[next]" (which takes priority) keeps the first
phase on the first phase. -/
theorem router_clamps_at_both_ends :
    (∀ cmd : String, containsSub (pyStrip (pyLower cmd)) "[next]" = true →
      router "deep_dive_and_tradeoffs" cmd = some "deep_dive_and_tradeoffs") ∧
    (∀ cmd : String, containsSub (pyStrip (pyLower cmd)) "[back]" = true →
      containsSub (pyStrip (pyLower cmd)) "[next]" = false →
      router "vision_and_scoping" cmd = some "vision_and_scoping") := by
  constructor
  · intro cmd h
    unfold router
    simp [h]
    decide
  · intro cmd hb hn
    unfold router
    simp [hb, hn]
    decide

/-- Witness for C5 at the concrete clamped commands. -/
theorem router_clamps_at_both_ends_witness :
    router "deep_dive_and_tradeoffs" "[next]" = some "deep_dive_and_tradeoffs" ∧
    router "vision_and_scoping" "[back]" = some "vision_and_scoping" :=
  ⟨router_clamps_at_both_ends.1 "[next]" (by decide),
   router_clamps_at_both_ends.2 "[back]" (by decide) (by decide)⟩

/-- C1 is violated by the code: on a turn whose command the Router maps to
"end", the compiled graph still begins at its fixed entry point
`self.phases[0]`, so that phase node runs once — invoking the model — and the
transcript gains an assistant entry before the conditional edge reaches END. -/
theorem end_turn_executes_entry_phase_node :
    router "data_model" "[end]" = some "end" ∧
    (run_agent_stream llmConst dbDM "[end]"
        (some "0123456789abcdef01234567") "x").yields.map chunkNode
      = [some "vision_and_scoping"] ∧
    (run_agent_stream llmConst dbDM "[end]"
        (some "0123456789abcdef01234567") "x").yields.map chunkHistory
      = [some [("user", "hi"), ("ai", "hello"), ("user", "[end]"), ("ai", "MODEL_REPLY")]] := by
  decide

/-- C2 is violated by the code: a turn whose command the Router maps to a phase
re-enters that phase node through the conditional self-edge, so phase nodes
execute 25 times — until LangGraph's recursion limit aborts the stream with an
error — instead of exactly once. -/
theorem phase_turn_chains_until_recursion_limit :
    router "vision_and_scoping" "hello" = some "vision_and_scoping" ∧
    (run_agent_stream llmConst [] "hello" none "0123456789abcdef01234567").yields.map chunkNode
      = List.replicate 25 (some "vision_and_scoping") ++ [none] := by
  decide

/-- C3 as stated is false: a "[summarize]" turn persists
`current_phase = "summarize"`, which is not one of the six phase identifiers,
in every snapshot it saves, while the session record remains loadable and
later turns still run. -/
theorem summarize_turn_persists_nonphase_marker :
    (run_agent_stream llmConst dbDM "[summarize]"
        (some "0123456789abcdef01234567") "x").saves.map (fun s => s.current_phase)
      = ["summarize", "summarize"] ∧
    ("summarize" : String) ∉ phases := by
  decide

/-- A found index is inside the list. -/
theorem pyIndex_lt_length {l : List String} {x : String} {i : Nat}
    (h : pyIndex l x = some i) : i < l.length := by
  induction l generalizing i with
  | nil => simp [pyIndex] at h
  | cons a t ih =>
    rw [pyIndex] at h
    split at h
    · simp only [Option.some.injEq] at h
      simp only [List.length_cons]
      omega
    · cases hp : pyIndex t x with
      | none => rw [hp] at h; simp at h
      | some j =>
        rw [hp] at h
        simp at h
        have := ih hp
        simp only [List.length_cons]
        omega

/-- Indexing inside the phase list lands in the phase list. -/
theorem phases_getD_mem {k : Nat} (h : k < phases.length) : phases.getD k "" ∈ phases := by
  have h6 : phases.length = 6 := by decide
  rw [h6] at h
  interval_cases k <;> decide

/-- Any successful Router result is a phase, "summarize", "end", or the current
phase echoed back unchanged. -/
theorem router_result_cases {cp cmd r : String} (h : router cp cmd = some r) :
    r ∈ phases ∨ r = "summarize" ∨ r = "end" ∨ r = cp := by
  have h6 : phases.length = 6 := by decide
  simp only [router] at h
  split at h
  · cases hp : pyIndex phases cp with
    | none => rw [hp] at h; simp at h
    | some i =>
      rw [hp] at h
      simp only [Option.some.injEq] at h
      subst h
      exact Or.inl (phases_getD_mem (by omega))
  · split at h
    · cases hp : pyIndex phases cp with
      | none => rw [hp] at h; simp at h
      | some i =>
        have hi := pyIndex_lt_length hp
        rw [hp] at h
        simp only [Option.some.injEq] at h
        subst h
        exact Or.inl (phases_getD_mem (by omega))
    · split at h
      · simp only [Option.some.injEq] at h
        exact Or.inr (Or.inl h.symm)
      · split at h
        · simp only [Option.some.injEq] at h
          exact Or.inr (Or.inr (Or.inl h.symm))
        · simp only [Option.some.injEq] at h
          exact Or.inr (Or.inr (Or.inr h.symm))

/-- From the persisted "summarize" marker the Router can only answer
"summarize" or "end": the indexed branches raise instead. -/
theorem router_from_summarize {cmd r : String} (h : router "summarize" cmd = some r) :
    r = "summarize" ∨ r = "end" := by
  have hp : pyIndex phases "summarize" = none := by decide
  simp only [router] at h
  split at h
  · rw [hp] at h; simp at h
  · split at h
    · rw [hp] at h; simp at h
    · split at h
      · simp only [Option.some.injEq] at h
        exact Or.inl h.symm
      · split at h
        · simp only [Option.some.injEq] at h
          exact Or.inr h.symm
        · simp only [Option.some.injEq] at h
          exact Or.inl h.symm

/-- A property of the orchestrator's (current_phase, user_command) pair that is
preserved by the recorded router step holds of every snapshot the loop saves,
provided it holds of the state going in and of the snapshots accumulated so
far. -/
theorem stream_loop_saves_rel (llm : LLM) (P : String → String → Prop)
    (hstep : ∀ cp cmd r, router cp cmd = some r → P cp cmd → r ≠ "end" → P r cmd)
    (fuel : Nat) :
    ∀ (node : String) (gst ost : AgentState) (ys : List Chunk) (ss : List AgentState),
      P ost.current_phase ost.user_command →
      (∀ s ∈ ss, P s.current_phase s.user_command) →
      ∀ s ∈ (stream_loop llm fuel node gst ost ys ss).saves,
        P s.current_phase s.user_command := by
  induction fuel with
  | zero =>
    intro node gst ost ys ss hP hss s hs
    rw [stream_loop] at hs
    exact hss s hs
  | succ n ih =>
    intro node gst ost ys ss hP hss s hs
    have hrec : ∀ (g2 : AgentState) (np : String),
        router (merge_update ost g2).current_phase (merge_update ost g2).user_command = some np →
        P (record_phase (merge_update ost g2) np).current_phase
          (record_phase (merge_update ost g2) np).user_command := by
      intro g2 np hr
      have hr2 : router ost.current_phase ost.user_command = some np := hr
      unfold record_phase
      by_cases hend : np = "end"
      · simp only [hend, bne_self_eq_false, if_false]
        exact hP
      · have hb : (np != "end") = true := by simp [hend]
        simp only [hb, if_true]
        exact hstep _ _ _ hr2 hP hend
    rw [stream_loop] at hs
    split at hs
    · exact hss s hs
    rename_i gst2 hrn
    split at hs
    · exact hss s hs
    rename_i tgt hnt
    split at hs
    · exact hss s hs
    rename_i np hr
    split at hs
    · replace hs : s ∈ ss ++ [record_phase (merge_update ost gst2) np] := hs
      rcases List.mem_append.mp hs with hmem | hmem
      · exact hss s hmem
      · rw [List.mem_singleton.mp hmem]
        exact hrec gst2 np hr
    · rename_i nn
      refine ih nn gst2 (record_phase (merge_update ost gst2) np) _ _
        (hrec gst2 np hr) ?_ s hs
      intro t ht
      rcases List.mem_append.mp ht with hmem | hmem
      · exact hss t hmem
      · rw [List.mem_singleton.mp hmem]
        exact hrec gst2 np hr

/-- Snapshots stay inside the phase list extended with the "summarize"
marker. -/
theorem stream_loop_saves_phase (llm : LLM) (fuel : Nat) (node : String)
    (gst ost : AgentState) (ys : List Chunk) (ss : List AgentState)
    (hP : ost.current_phase ∈ phases ∨ ost.current_phase = "summarize")
    (hss : ∀ s ∈ ss, s.current_phase ∈ phases ∨ s.current_phase = "summarize") :
    ∀ s ∈ (stream_loop llm fuel node gst ost ys ss).saves,
      s.current_phase ∈ phases ∨ s.current_phase = "summarize" :=
  stream_loop_saves_rel llm (fun cp _ => cp ∈ phases ∨ cp = "summarize")
    (fun _ _ _ hr hcp hne => by
      rcases router_result_cases hr with h | h | h | h
      · exact Or.inl h
      · exact Or.inr h
      · exact absurd h hne
      · rw [h]; exact hcp)
    fuel node gst ost ys ss hP hss

/-- Once the orchestrator state carries the "summarize" marker, every snapshot
it saves does. -/
theorem stream_loop_saves_frozen (llm : LLM) (fuel : Nat) (node : String)
    (gst ost : AgentState) (ys : List Chunk) (ss : List AgentState)
    (hP : ost.current_phase = "summarize")
    (hss : ∀ s ∈ ss, s.current_phase = "summarize") :
    ∀ s ∈ (stream_loop llm fuel node gst ost ys ss).saves,
      s.current_phase = "summarize" :=
  stream_loop_saves_rel llm (fun cp _ => cp = "summarize")
    (fun _ _ _ hr hcp hne => by
      subst hcp
      rcases router_from_summarize hr with h | h
      · exact h
      · exact absurd h hne)
    fuel node gst ost ys ss hP hss

/-- C3 (amended): every state a turn persists has `current_phase` in the six
phase list or equal to the terminal marker "summarize" — both for brand-new
sessions and for sessions resumed from such a state — and once the marker
"summarize" has been persisted, every state persisted afterwards still carries
it, so no further phase transitions occur from the marker.  The claim as frozen
fails only in requiring membership in the six identifiers alone: a
"[summarize]" turn persists the marker itself. -/
theorem persisted_phase_in_list_or_marker (llm : LLM) (db : Db)
    (input id new_id : String) (st : AgentState)
    (hload : load_discussion db id = some st) (hne : (id == "") = false) :
    ((st.current_phase ∈ phases ∨ st.current_phase = "summarize") →
      ∀ s ∈ (run_agent_stream llm db input (some id) new_id).saves,
        s.current_phase ∈ phases ∨ s.current_phase = "summarize") ∧
    (st.current_phase = "summarize" →
      ∀ s ∈ (run_agent_stream llm db input (some id) new_id).saves,
        s.current_phase = "summarize") ∧
    (∀ s ∈ (run_agent_stream llm db input none new_id).saves,
      s.current_phase ∈ phases ∨ s.current_phase = "summarize") := by
  have hrun : run_agent_stream llm db input (some id) new_id = start_turn llm input st := by
    simp [run_agent_stream, hne, hload]
  refine ⟨?_, ?_, ?_⟩
  · intro hst s hs
    rw [hrun] at hs
    simp only [start_turn] at hs
    exact stream_loop_saves_phase llm recursion_limit (phases.getD 0 "")
      (turn_state input st) (turn_state input st) [] [] hst
      (fun t ht => absurd ht (List.not_mem_nil t)) s hs
  · intro hst s hs
    rw [hrun] at hs
    simp only [start_turn] at hs
    exact stream_loop_saves_frozen llm recursion_limit (phases.getD 0 "")
      (turn_state input st) (turn_state input st) [] [] hst
      (fun t ht => absurd ht (List.not_mem_nil t)) s hs
  · intro s hs
    simp only [run_agent_stream, start_turn] at hs
    exact stream_loop_saves_phase llm recursion_limit (phases.getD 0 "")
      (turn_state input (fresh_state new_id)) (turn_state input (fresh_state new_id)) [] []
      (Or.inl (show phases.getD 0 "" ∈ phases from by decide))
      (fun t ht => absurd ht (List.not_mem_nil t)) s hs

/-- Witness for C3 at a concrete resumed turn: the first snapshot saved by the
"[summarize]" turn satisfies the amended invariant. -/
theorem persisted_phase_in_list_or_marker_witness :
    ((run_agent_stream llmConst dbDM "[summarize]"
        (some "0123456789abcdef01234567") "x").saves.getD 0 default).current_phase ∈ phases ∨
    ((run_agent_stream llmConst dbDM "[summarize]"
        (some "0123456789abcdef01234567") "x").saves.getD 0 default).current_phase = "summarize" :=
  (persisted_phase_in_list_or_marker llmConst dbDM "[summarize]"
      "0123456789abcdef01234567" "x" sessionDM (by decide) (by decide)).1
    (by decide)
    ((run_agent_stream llmConst dbDM "[summarize]"
        (some "0123456789abcdef01234567") "x").saves.getD 0 default)
    (by decide)

/-- C6: when the model call raises during a phase execution (the transcript is
nonempty, as in every orchestrated execution), the node swallows the failure
and returns normally, and the transcript gains exactly one assistant entry
whose text is the fixed fallback apology. -/
theorem phase_node_llm_failure_appends_fallback (llm : LLM) (phase_name : String)
    (st : AgentState) (last : Entry)
    (hlast : st.conversation_history.getLast? = some last)
    (hfail : llm (prompt_messages phase_name st last) = none) :
    (phase_node llm phase_name st).map (fun u => u.conversation_history)
      = some (st.conversation_history ++ [("ai", FALLBACK_MESSAGE)]) := by
  unfold phase_node
  rw [hlast]
  simp [ai_message, hfail]

/-- Witness for C6 at a concrete state and failing model. -/
theorem phase_node_llm_failure_appends_fallback_witness :
    ((phase_node (fun _ => none) "functional_requirements" sessionDM).map
        (fun u => u.conversation_history))
      = some (sessionDM.conversation_history ++ [("ai", FALLBACK_MESSAGE)]) :=
  phase_node_llm_failure_appends_fallback (fun _ => none) "functional_requirements"
    sessionDM ("ai", "hello") (by decide) rfl

/-- Reading back the key just written. -/
theorem dictGetD_dictSet_self (d : List (String × String)) (k v : String) :
    dictGetD (dictSet d k v) k "" = v := by
  induction d with
  | nil => simp [dictSet, dictGetD]
  | cons a t ih =>
    obtain ⟨a1, a2⟩ := a
    by_cases h : (a1 == k) = true
    · simp [dictSet, dictGetD, h]
    · simp [dictSet, dictGetD, h, ih]

/-- Writing one key leaves every other key unchanged. -/
theorem dictGetD_dictSet_other (d : List (String × String)) (k k2 v dflt : String)
    (h : k2 ≠ k) : dictGetD (dictSet d k v) k2 dflt = dictGetD d k2 dflt := by
  have hkk : (k == k2) = false := beq_eq_false_iff_ne.mpr (Ne.symm h)
  induction d with
  | nil => simp [dictSet, dictGetD, hkk]
  | cons a t ih =>
    obtain ⟨a1, a2⟩ := a
    by_cases h1 : (a1 == k) = true
    · have ha1 : a1 = k := by simpa using h1
      subst ha1
      simp [dictSet, dictGetD, h1, hkk]
    · simp [dictSet, dictGetD, h1, ih]

/-- A phase execution only appends to the active phase's fragment: for every
key, the fragment before the execution is a prefix of the fragment after. -/
theorem phase_node_doc_extends (llm : LLM) (p : String) (st u : AgentState)
    (h : phase_node llm p st = some u) (key : String) :
    (dictGetD st.design_document key "").data <+: (dictGetD u.design_document key "").data := by
  unfold phase_node at h
  cases hl : st.conversation_history.getLast? with
  | none => rw [hl] at h; simp at h
  | some last =>
    rw [hl] at h
    simp only [Option.some.injEq] at h
    subst h
    dsimp only
    by_cases hk : key = p
    · subst hk
      rw [dictGetD_dictSet_self]
      simp only [String.data_append, List.append_assoc]
      exact List.prefix_append _ _
    · rw [dictGetD_dictSet_other _ _ _ _ _ hk]

/-- The summary node does not touch the document. -/
theorem summary_node_doc (llm : LLM) (st : AgentState) :
    (summary_node llm st).design_document = st.design_document := rfl

/-- Merging a node update adopts the graph state's document. -/
theorem merge_update_doc (ost gst2 : AgentState) :
    (merge_update ost gst2).design_document = gst2.design_document := rfl

/-- Recording the next phase does not touch the document. -/
theorem record_phase_doc (ost2 : AgentState) (np : String) :
    (record_phase ost2 np).design_document = ost2.design_document := by
  unfold record_phase
  split <;> rfl

/-- For every key, the document fragment in every snapshot the loop saves
extends the fragment the graph state carried going in. -/
theorem stream_loop_doc_extends (llm : LLM) (base key : String) (fuel : Nat) :
    ∀ (node : String) (gst ost : AgentState) (ys : List Chunk) (ss : List AgentState),
      base.data <+: (dictGetD gst.design_document key "").data →
      (∀ s ∈ ss, base.data <+: (dictGetD s.design_document key "").data) →
      ∀ s ∈ (stream_loop llm fuel node gst ost ys ss).saves,
        base.data <+: (dictGetD s.design_document key "").data := by
  induction fuel with
  | zero =>
    intro node gst ost ys ss hg hss s hs
    rw [stream_loop] at hs
    exact hss s hs
  | succ n ih =>
    intro node gst ost ys ss hg hss s hs
    rw [stream_loop] at hs
    split at hs
    · exact hss s hs
    rename_i gst2 hrn
    have hg2 : base.data <+: (dictGetD gst2.design_document key "").data := by
      unfold run_node at hrn
      split at hrn
      · simp only [Option.some.injEq] at hrn
        rw [← hrn, summary_node_doc]
        exact hg
      · exact hg.trans (phase_node_doc_extends llm node gst gst2 hrn key)
    split at hs
    · exact hss s hs
    rename_i tgt hnt
    split at hs
    · exact hss s hs
    rename_i np hr
    have hsave : base.data <+:
        (dictGetD (record_phase (merge_update ost gst2) np).design_document key "").data := by
      rw [record_phase_doc, merge_update_doc]
      exact hg2
    split at hs
    · replace hs : s ∈ ss ++ [record_phase (merge_update ost gst2) np] := hs
      rcases List.mem_append.mp hs with hmem | hmem
      · exact hss s hmem
      · rw [List.mem_singleton.mp hmem]
        exact hsave
    · rename_i nn
      refine ih nn gst2 (record_phase (merge_update ost gst2) np) _ _ hg2 ?_ s hs
      intro t ht
      rcases List.mem_append.mp ht with hmem | hmem
      · exact hss t hmem
      · rw [List.mem_singleton.mp hmem]
        exact hsave

/-- C7: document fragments are append-only — every phase execution leaves each
phase key's fragment a prefix of the new one (the active key gains a suffix,
every other key is untouched), and across a whole resumed turn every persisted
snapshot carries, for every key, a fragment extending the loaded one; lengths
are therefore monotonically non-decreasing. -/
theorem document_fragments_append_only :
    (∀ (llm : LLM) (p : String) (st u : AgentState), phase_node llm p st = some u →
      ∀ key, (dictGetD st.design_document key "").data <+:
        (dictGetD u.design_document key "").data) ∧
    (∀ (llm : LLM) (db : Db) (input id new_id : String) (st : AgentState),
      load_discussion db id = some st → (id == "") = false →
      ∀ s ∈ (run_agent_stream llm db input (some id) new_id).saves,
      ∀ key, (dictGetD st.design_document key "").data <+:
        (dictGetD s.design_document key "").data) := by
  constructor
  · exact phase_node_doc_extends
  · intro llm db input id new_id st hload hne s hs key
    have hrun : run_agent_stream llm db input (some id) new_id = start_turn llm input st := by
      simp [run_agent_stream, hne, hload]
    rw [hrun] at hs
    simp only [start_turn] at hs
    exact stream_loop_doc_extends llm (dictGetD st.design_document key "") key recursion_limit
      (phases.getD 0 "") (turn_state input st) (turn_state input st) [] []
      List.prefix_rfl (fun t ht => absurd ht (List.not_mem_nil t)) s hs

/-- Witness for C7: the "vision_and_scoping" fragment loaded from the store is
a prefix of the fragment in the snapshot persisted by a concrete resumed
turn. -/
theorem document_fragments_append_only_witness :
    (dictGetD sessionDM.design_document "vision_and_scoping" "").data <+:
    (dictGetD ((run_agent_stream llmConst dbDM "[end]"
          (some "0123456789abcdef01234567") "x").saves.getD 0 default).design_document
        "vision_and_scoping" "").data :=
  document_fragments_append_only.2 llmConst dbDM "[end]" "0123456789abcdef01234567" "x"
    sessionDM (by decide) (by decide)
    ((run_agent_stream llmConst dbDM "[end]"
        (some "0123456789abcdef01234567") "x").saves.getD 0 default)
    (by decide) "vision_and_scoping"

/-- `history[-1:]` of a transcript whose last entry is known. -/
theorem drop_length_sub_one {l : List Entry} {a : Entry}
    (h : l.getLast? = some a) : l.drop (l.length - 1) = [a] := by
  induction l with
  | nil => simp at h
  | cons x t ih =>
    cases t with
    | nil =>
      simp only [List.getLast?_singleton, Option.some.injEq] at h
      subst h
      rfl
    | cons y s =>
      rw [List.getLast?_cons_cons] at h
      have ht := ih h
      have hlen : (x :: y :: s).length - 1 = (y :: s).length := by simp
      rw [hlen]
      have hys : (y :: s).length = s.length + 1 := by simp
      rw [hys, List.drop_succ_cons]
      simpa using ht

/-- C8 as stated is false: the appended fragment carries a leading newline and
an "AI: " label — it is not the plain newline-join of the user message and the
response concatenated onto the prior content. -/
theorem document_fragment_text_counterexample :
    (phase_node (fun _ => some "reply") "vision_and_scoping"
        { discussion_id := "d",
          conversation_history := [("user", "hello")],
          current_phase := "vision_and_scoping",
          design_document := [],
          user_command := "hello" }).map
      (fun u => dictGetD u.design_document "vision_and_scoping" "")
      = some "\nhello\nAI: reply" ∧
    ("\nhello\nAI: reply" : String) ≠ "hello" ++ "\n" ++ "reply" := by
  decide

/-- C8 (amended): each phase execution appends to the active phase's fragment a
newline, then the text of the last transcript entry — on the first phase
execution of a turn this is the triggering user message — then a newline and
the label "AI: " followed by the assistant response, all concatenated onto any
prior content for that key. -/
theorem document_fragment_appended_text (llm : LLM) (p : String) (st : AgentState)
    (last : Entry) (hlast : st.conversation_history.getLast? = some last) :
    (phase_node llm p st).map (fun u => dictGetD u.design_document p "")
      = some (dictGetD st.design_document p "" ++ "\n" ++ last.2 ++ "\nAI: " ++
          ai_message llm p st last) := by
  unfold phase_node
  rw [hlast]
  dsimp only [Option.map_some']
  rw [dictGetD_dictSet_self, drop_length_sub_one hlast]
  rfl

/-- Witness for C8 at a concrete state and model. -/
theorem document_fragment_appended_text_witness :
    (phase_node llmConst "data_model" sessionDM).map
        (fun u => dictGetD u.design_document "data_model" "")
      = some (dictGetD sessionDM.design_document "data_model" "" ++ "\n" ++
          ("ai", "hello").2 ++ "\nAI: " ++
          ai_message llmConst "data_model" sessionDM ("ai", "hello")) :=
  document_fragment_appended_text llmConst "data_model" sessionDM ("ai", "hello") (by decide)

/-- C9: loading an unknown or syntactically malformed session id yields absent
(`None`), not a crash, and the orchestrator surfaces it as a single non-fatal
error chunk, saving no state at all. -/
theorem load_invalid_id_absent_turn_error (db : Db) (id : String)
    (h : isValidObjectId id = false ∨ db.lookup id = none) (hne : (id == "") = false) :
    load_discussion db id = none ∧
    ∀ (llm : LLM) (input new_id : String),
      run_agent_stream llm db input (some id) new_id
        = ⟨[.error ("Could not load discussion " ++ id ++ ".")], []⟩ := by
  have hload : load_discussion db id = none := by
    unfold load_discussion
    rcases h with h | h
    · simp [h]
    · simp [h]
  refine ⟨hload, fun llm input new_id => ?_⟩
  simp [run_agent_stream, hne, hload]

/-- Witness for C9 at a concrete malformed id. -/
theorem load_invalid_id_absent_turn_error_witness :
    load_discussion dbDM "not-a-valid-objectid" = none ∧
    run_agent_stream llmConst dbDM "hi" (some "not-a-valid-objectid") "x"
      = ⟨[.error ("Could not load discussion " ++ "not-a-valid-objectid" ++ ".")], []⟩ :=
  ⟨(load_invalid_id_absent_turn_error dbDM "not-a-valid-objectid"
      (by decide) (by decide)).1,
   (load_invalid_id_absent_turn_error dbDM "not-a-valid-objectid"
      (by decide) (by decide)).2 llmConst "hi" "x"⟩

/-- C10: every turn's stream starts at the fixed entry node `self.phases[0]`
with the transcript ending in the just-appended user message, so the
`is_new_phase` test (last entry's speaker is "user") holds and the executing
phase's guiding prompt is appended to the model call — on resumed and on fresh
sessions alike, whether or not the phase was newly entered. -/
theorem first_phase_node_gets_guiding_prompt (llm : LLM) (db : Db)
    (input id new_id : String) (st : AgentState)
    (hload : load_discussion db id = some st) (hne : (id == "") = false) :
    (turn_state input st).conversation_history.getLast? = some ("user", input) ∧
    prompt_messages (phases.getD 0 "") (turn_state input st) ("user", input)
      = ("human", SYSTEM_PERSONA) ::
          (format_history (turn_state input st).conversation_history
            ++ [("human", VISION_AND_SCOPING_PROMPT)]) ∧
    run_agent_stream llm db input (some id) new_id
      = stream_loop llm recursion_limit (phases.getD 0 "")
          (turn_state input st) (turn_state input st) [] [] ∧
    (turn_state input (fresh_state new_id)).conversation_history.getLast?
      = some ("user", input) ∧
    run_agent_stream llm db input none new_id
      = stream_loop llm recursion_limit (phases.getD 0 "")
          (turn_state input (fresh_state new_id)) (turn_state input (fresh_state new_id)) [] [] := by
  refine ⟨List.getLast?_concat _, ?_, ?_, List.getLast?_concat _, ?_⟩
  · rfl
  · simp [run_agent_stream, hne, hload, start_turn]
  · simp [run_agent_stream, start_turn]

/-- Witness for C10 at a concrete resumed turn. -/
theorem first_phase_node_gets_guiding_prompt_witness :
    (turn_state "go on" sessionDM).conversation_history.getLast? = some ("user", "go on") ∧
    prompt_messages (phases.getD 0 "") (turn_state "go on" sessionDM) ("user", "go on")
      = ("human", SYSTEM_PERSONA) ::
          (format_history (turn_state "go on" sessionDM).conversation_history
            ++ [("human", VISION_AND_SCOPING_PROMPT)]) ∧
    run_agent_stream llmConst dbDM "go on" (some "0123456789abcdef01234567") "x"
      = stream_loop llmConst recursion_limit (phases.getD 0 "")
          (turn_state "go on" sessionDM) (turn_state "go on" sessionDM) [] [] ∧
    (turn_state "go on" (fresh_state "x")).conversation_history.getLast?
      = some ("user", "go on") ∧
    run_agent_stream llmConst dbDM "go on" none "x"
      = stream_loop llmConst recursion_limit (phases.getD 0 "")
          (turn_state "go on" (fresh_state "x")) (turn_state "go on" (fresh_state "x")) [] [] :=
  first_phase_node_gets_guiding_prompt llmConst dbDM "go on" "0123456789abcdef01234567" "x"
    sessionDM (by decide) (by decide)

end SysDesign
